import Mathlib

/-!
# Weigongshan weather clock — verification of the update engine and parser

Shallow embedding of the repository's three source files:

* `app/app copy.c` — the five periodic job bodies (`time_sync`, `wifi_update`,
  `time_update`, `inner_update`, `outdoor_update`) and the startup entry point
  `app_init`.
* `app/weather copy.c` — the substring-anchored field extractor
  `parse_seniverse_response`.
* `app/page/main_page copy.c` — the display setters; only the weather-icon
  selection has decision logic, the rest are fire-and-forget draws modelled as
  an inductive type of display calls.

External collaborators (RTC, AHT20 sensor, ESP AT transport, FreeRTOS timers
and the work queue) are modelled as explicit inputs: each job body takes the
fetch result it would have obtained and returns the new snapshot together
with the list of display calls it performs.  C's `memcmp` over the
padding-free snapshot structs is modelled as structural (field-wise) equality,
and the C `float` values are modelled as rationals.
-/

/- ## Models of the C library string routines used by the source -/

/-- `isPrefixList needle hay`: does `needle` occur at the very start of `hay`?
(the prefix test underlying C `strstr`). -/
def isPrefixList : List Char → List Char → Bool
  | [], _ => true
  | _ :: _, [] => false
  | c :: cs, d :: ds => c = d && isPrefixList cs ds

/-- Model of C `strstr`: returns the suffix of `hay` beginning at the first
occurrence of `needle`, or `none` when `needle` does not occur. -/
def strstrList (needle : List Char) : List Char → Option (List Char)
  | [] => if isPrefixList needle [] then some [] else none
  | d :: ds =>
    if isPrefixList needle (d :: ds) then some (d :: ds)
    else strstrList needle ds

/-- The whitespace class of C `isspace` (the set skipped by `sscanf`). -/
def isSpaceChar (c : Char) : Bool :=
  c = ' ' || c = '\t' || c = '\n' || c = '\r' || c = '\x0b' || c = '\x0c'

/-- Skip a (possibly empty) run of whitespace, as a whitespace directive in a
`sscanf` format does. -/
def skipWs : List Char → List Char
  | [] => []
  | c :: cs => if isSpaceChar c then skipWs cs else c :: cs

/-- Match the literal characters `lit` at the start of the input, returning
the rest of the input (a literal directive in a `sscanf` format). -/
def matchLit : List Char → List Char → Option (List Char)
  | [], s => some s
  | _ :: _, [] => none
  | c :: cs, d :: ds => if c = d then matchLit cs ds else none

/-- Take up to `n` characters that are not `'"'` — the scan set `%n[^"]` of
`sscanf`.  Returns the matched run and the rest of the input. -/
def takeNonQuote (n : Nat) : List Char → List Char × List Char
  | [] => ([], [])
  | c :: cs =>
    match n with
    | 0 => ([], c :: cs)
    | n + 1 =>
      if c = '"' then ([], c :: cs)
      else
        let (t, r) := takeNonQuote n cs
        (c :: t, r)

/-- A run of leading decimal digits. -/
def takeDigits : List Char → List Char × List Char
  | [] => ([], [])
  | c :: cs =>
    if c.isDigit then
      let (t, r) := takeDigits cs
      (c :: t, r)
    else ([], c :: cs)

/-- Decimal value of a digit run. -/
def digitsToNat (ds : List Char) : Nat :=
  ds.foldl (fun n c => 10 * n + (c.toNat - 48)) 0

/-- The `%d` conversion of `sscanf`: skip whitespace, optional sign, at least
one digit; `none` is a matching failure (the output variable is not
assigned). -/
def scanfInt (s : List Char) : Option Int :=
  match skipWs s with
  | '-' :: rest =>
    match takeDigits rest with
    | ([], _) => none
    | (ds, _) => some (-(digitsToNat ds : Int))
  | '+' :: rest =>
    match takeDigits rest with
    | ([], _) => none
    | (ds, _) => some (digitsToNat ds : Int)
  | s' =>
    match takeDigits s' with
    | ([], _) => none
    | (ds, _) => some (digitsToNat ds : Int)

/-- Model of `sscanf(p, "\"KEY\": \"%N[^\"]\"", buf)` as used by the parser:
match the literal `"KEY":`, an optional whitespace run, a literal `"`, then a
non-empty run of at most `maxLen` non-quote characters, which is the value
assigned to `buf`.  `none` means the conversion never assigned (`sscanf`
returned 0), so the caller's field keeps its previous value. -/
def scanQuotedField (key : String) (maxLen : Nat) (p : List Char) : Option String :=
  match matchLit ("\"" ++ key ++ "\":").toList p with
  | none => none
  | some rest =>
    match matchLit ['"'] (skipWs rest) with
    | none => none
    | some rest =>
      match takeNonQuote maxLen rest with
      | ([], _) => none
      | (cs, _) => some (String.mk cs)

/-- Model of `sscanf(p, "\"KEY\": \"%d\"", &x)`: literal `"KEY":`, optional
whitespace, literal `"`, then a `%d` conversion. -/
def scanIntField (key : String) (p : List Char) : Option Int :=
  match matchLit ("\"" ++ key ++ "\":").toList p with
  | none => none
  | some rest =>
    match matchLit ['"'] (skipWs rest) with
    | none => none
    | some rest => scanfInt rest

/-- Model of C `atof` on the plain decimal numerals the weather service
emits: optional whitespace and sign, integer digits, optional fraction.
Unparsable input yields `0`, as `atof` does. -/
def atofQ (s : List Char) : ℚ :=
  let core : List Char → ℚ := fun t =>
    let (ip, rest) := takeDigits t
    match rest with
    | '.' :: rest2 =>
      let (fp, _) := takeDigits rest2
      (digitsToNat ip : ℚ) + (digitsToNat fp : ℚ) / ((10 : ℚ) ^ fp.length)
    | _ => (digitsToNat ip : ℚ)
  match skipWs s with
  | '-' :: rest => -(core rest)
  | '+' :: rest => core rest
  | s' => core s'

/- ## Data model (`weather.h`, `rtc.h`, `esp_at.h` record types) -/

/-- `weather_info_t` from `weather.h`: city name, full location path (the
source spells the field `loaction`), weather description, numeric weather
code, temperature in degrees. -/
structure weather_info_t where
  city : String
  loaction : String
  weather : String
  weather_code : Int
  temperature : ℚ
deriving DecidableEq, Repr

/-- The zero-initialised `weather_info_t` (`weather_info_t weather = { 0 }`). -/
def weather_zero : weather_info_t :=
  { city := "", loaction := "", weather := "", weather_code := 0, temperature := 0 }

/-- `rtc_date_time_t` from `rtc.h` (also the shape of `esp_date_time_t`). -/
structure rtc_date_time_t where
  year : Nat
  month : Nat
  day : Nat
  hour : Nat
  minute : Nat
  second : Nat
  weekday : Nat
deriving DecidableEq, Repr

/-- `esp_date_time_t` from `esp_at.h`: same fields as the RTC structure. -/
structure esp_date_time_t where
  year : Nat
  month : Nat
  day : Nat
  hour : Nat
  minute : Nat
  second : Nat
  weekday : Nat
deriving DecidableEq, Repr

/-- `esp_wifi_info_t` from `esp_at.h`: the fields the job body reads. -/
structure esp_wifi_info_t where
  ssid : String
  bssid : String
  channel : Int
  rssi : Int
  connected : Bool
deriving DecidableEq, Repr

/- ## Field extractor (`app/weather copy.c`, `parse_seniverse_response`) -/

/-- `parse_seniverse_response(response, info)`: locate the `"results":`
anchor (fail if absent), then from there the `"location":` anchor (fail if
absent), best-effort scan of `name` and `path`, then from the results
position the `"now":` anchor (fail if absent), best-effort scan of `text`,
`code` and `temperature`.  `info` is the caller's record, written through
sparsely; `none` models `return false`. -/
def parse_seniverse_response (response : String) (info : weather_info_t) :
    Option weather_info_t :=
  match strstrList ("\"results\":").toList response.toList with
  | none => none
  | some response =>
    match strstrList ("\"location\":").toList response with
    | none => none
    | some location_response =>
      let info :=
        match strstrList ("\"name\":").toList location_response with
        | none => info
        | some p =>
          match scanQuotedField "name" 31 p with
          | none => info
          | some s => { info with city := s }
      let info :=
        match strstrList ("\"path\":").toList location_response with
        | none => info
        | some p =>
          match scanQuotedField "path" 128 p with
          | none => info
          | some s => { info with loaction := s }
      match strstrList ("\"now\":").toList response with
      | none => none
      | some now_response =>
        let info :=
          match strstrList ("\"text\":").toList now_response with
          | none => info
          | some p =>
            match scanQuotedField "text" 15 p with
            | none => info
            | some s => { info with weather := s }
        let info :=
          match strstrList ("\"code\":").toList now_response with
          | none => info
          | some p =>
            match scanIntField "code" p with
            | none => info
            | some n => { info with weather_code := n }
        let info :=
          match strstrList ("\"temperature\":").toList now_response with
          | none => info
          | some p =>
            match scanQuotedField "temperature" 15 p with
            | none => info
            | some s => { info with temperature := atofQ s.toList }
        some info

/- ## Display sink (`app/page/main_page copy.c`) -/

/-- One call to a display setter of `main_page copy.c`.  Each constructor is
one `main_page_redraw_*` entry point; the argument is the value forwarded. -/
inductive DisplayCall
  | main_page_redraw_wifi_ssid (ssid : String)
  | main_page_redraw_time (d : rtc_date_time_t)
  | main_page_redraw_date (d : rtc_date_time_t)
  | main_page_redraw_inner_temperature (t : ℚ)
  | main_page_redraw_inner_humidity (h : ℚ)
  | main_page_redraw_outdoor_temperature (t : ℚ)
  | main_page_redraw_outdoor_weather_icon (code : Int)
  | main_page_redraw_outdoor_city (city : String)
deriving DecidableEq, Repr

/-- The five weather-icon images of `main_page copy.c`. -/
inductive weather_icon_t
  | img_weather_sunny
  | img_weather_cloudy
  | img_weather_rainy
  | img_weather_snowy
  | img_weather_unknown
deriving DecidableEq, Repr

/-- The `switch (code)` of `main_page_redraw_outdoor_weather_icon`: which
icon image is selected for a numeric weather code. -/
def main_page_redraw_outdoor_weather_icon (code : Int) : weather_icon_t :=
  if code = 0 ∨ code = 1 then .img_weather_sunny
  else if code = 4 ∨ code = 5 ∨ code = 6 ∨ code = 7 ∨ code = 8 then .img_weather_cloudy
  else if code = 9 ∨ code = 10 ∨ code = 11 ∨ code = 12 ∨ code = 13 then .img_weather_rainy
  else if code = 14 ∨ code = 15 ∨ code = 16 ∨ code = 17 then .img_weather_snowy
  else .img_weather_unknown

/-- The city setter `main_page_redraw_outdoor_city` exists in the display
interface; this is the call it would emit. -/
def main_page_redraw_outdoor_city (city : String) : DisplayCall :=
  .main_page_redraw_outdoor_city city

/- ## Job bodies (`app/app copy.c`) -/

/-- Time-unit macros of `app copy.c`, in milliseconds. -/
def MILLISECONDS (x : Nat) : Nat := x

/-- `SECONDS(x)` — seconds to milliseconds. -/
def SECONDS (x : Nat) : Nat := MILLISECONDS (x * 1000)

/-- `MINUTES(x)` — minutes to milliseconds. -/
def MINUTES (x : Nat) : Nat := SECONDS (x * 60)

/-- `HOURS(x)` — hours to milliseconds. -/
def HOURS (x : Nat) : Nat := MINUTES (x * 60)

/-- Steady-state time-sync interval: one hour. -/
def TIME_SYNC_INTERVAL : Nat := HOURS 1

/-- Wi-Fi status polling interval: 5 seconds. -/
def WIFI_UPDATE_INTERVAL : Nat := SECONDS 5

/-- Clock display refresh interval: 1 second. -/
def TIME_UPDATE_INTERVAL : Nat := SECONDS 1

/-- Indoor sensor refresh interval: 3 seconds. -/
def INNER_UPDATE_INTERVAL : Nat := SECONDS 3

/-- Outdoor weather refresh interval: 1 minute. -/
def OUTDOOR_UPDATE_INTERVAL : Nat := MINUTES 1

/-- An externally visible effect of one `time_sync` invocation: a write of
the RTC, or a reprogramming of the job's own timer
(`xTimerChangePeriod(time_sync_timer, …)`), in program order. -/
inductive SyncEffect
  | rtc_set_time (d : rtc_date_time_t)
  | xTimerChangePeriod (ms : Nat)
deriving DecidableEq, Repr

/-- The period argument of a timer-reprogramming effect, `none` for other
effects. -/
def SyncEffect.periodOf : SyncEffect → Option Nat
  | .xTimerChangePeriod ms => some ms
  | _ => none

/-- `time_sync`: the SNTP fetch result is the input (`none` models
`esp_at_sntp_get_time` returning false).  `restart_sync_delay` starts at
`TIME_SYNC_INTERVAL` and is lowered to `SECONDS(1)` on fetch failure or an
implausible year (< 2000); on success the RTC is set.  The `goto err` makes
the `xTimerChangePeriod` call the last effect on every path. -/
def time_sync (fetch : Option esp_date_time_t) : List SyncEffect :=
  match fetch with
  | none => [.xTimerChangePeriod (SECONDS 1)]
  | some esp_date =>
    if esp_date.year < 2000 then
      [.xTimerChangePeriod (SECONDS 1)]
    else
      [.rtc_set_time ⟨esp_date.year, esp_date.month, esp_date.day,
          esp_date.hour, esp_date.minute, esp_date.second, esp_date.weekday⟩,
       .xTimerChangePeriod TIME_SYNC_INTERVAL]

/-- `wifi_update`: input is the fetch result of `esp_at_get_wifi_info` and
the static `last_info` snapshot; output is the snapshot after the call and
the display calls performed.  The body returns early when the whole struct
is unchanged (`memcmp`), then when the `connected` flag is unchanged; on a
connect it forwards the new SSID, on a disconnect the literal
`"wifi lost"`, and only then copies the new info into the snapshot. -/
def wifi_update (fetch : Option esp_wifi_info_t) (last_info : esp_wifi_info_t) :
    esp_wifi_info_t × List DisplayCall :=
  match fetch with
  | none => (last_info, [])
  | some info =>
    if info = last_info then (last_info, [])
    else if last_info.connected = info.connected then (last_info, [])
    else if info.connected then
      (info, [.main_page_redraw_wifi_ssid info.ssid])
    else
      (info, [.main_page_redraw_wifi_ssid "wifi lost"])

/-- `time_update`: input is the RTC reading (`rtc_get_time` cannot fail) and
the static `last_date` snapshot.  A year below 2020 is discarded; an
unchanged reading is suppressed; otherwise the snapshot is updated and the
time and date are redrawn. -/
def time_update (date last_date : rtc_date_time_t) :
    rtc_date_time_t × List DisplayCall :=
  if date.year < 2020 then (last_date, [])
  else if date = last_date then (last_date, [])
  else (date, [.main_page_redraw_time date, .main_page_redraw_date date])

/-- `inner_update`: inputs are the results of the three AHT20 driver calls
(`aht20_start_measurement`, `aht20_wait_for_measurement`,
`aht20_read_measurement`, the last returning the temperature/humidity pair
on success) and the static `(last_temperature, last_humidity)` snapshot. -/
def inner_update (start_ok wait_ok : Bool) (read : Option (ℚ × ℚ))
    (last : ℚ × ℚ) : (ℚ × ℚ) × List DisplayCall :=
  if !start_ok then (last, [])
  else if !wait_ok then (last, [])
  else
    match read with
    | none => (last, [])
    | some (temperature, humidity) =>
      if temperature = last.1 ∧ humidity = last.2 then (last, [])
      else ((temperature, humidity),
        [.main_page_redraw_inner_temperature temperature,
         .main_page_redraw_inner_humidity humidity])

/-- `outdoor_update`: input is the HTTP response (`none` models
`esp_at_http_get` returning NULL) and the static `last_weather` snapshot.
The response is parsed into a zeroed record; parse failure is absorbed; an
unchanged record is suppressed; otherwise the snapshot is updated and the
outdoor temperature and the weather icon are forwarded. -/
def outdoor_update (fetch : Option String) (last_weather : weather_info_t) :
    weather_info_t × List DisplayCall :=
  match fetch with
  | none => (last_weather, [])
  | some weather_http_response =>
    match parse_seniverse_response weather_http_response weather_zero with
    | none => (last_weather, [])
    | some weather =>
      if weather = last_weather then (last_weather, [])
      else (weather,
        [.main_page_redraw_outdoor_temperature weather.temperature,
         .main_page_redraw_outdoor_weather_icon weather.weather_code])

/- ## Startup entry point (`app_init`) -/

/-- The five jobs of the application, one per job body. -/
inductive app_job
  | time_sync
  | wifi_update
  | time_update
  | inner_update
  | outdoor_update
deriving DecidableEq, Repr, Fintype

/-- Which timer callback a timer was created with: `app_timer_cb` runs the
job inline in the timer context, `work_timer_cb` defers it to the work
queue. -/
inductive dispatch_mode
  | inline
  | deferred
deriving DecidableEq, Repr

/-- One `xTimerCreate` call of `app_init`: name, period (ms), auto-reload
flag, the job stored as the timer ID, and the dispatch mode implied by the
callback. -/
structure timer_spec where
  name : String
  period_ms : Nat
  auto_reload : Bool
  job : app_job
  mode : dispatch_mode
deriving DecidableEq, Repr

/-- The five timers `app_init` creates, in program order. -/
def app_init_timers : List timer_spec :=
  [⟨"time update", TIME_UPDATE_INTERVAL, true, .time_update, .inline⟩,
   ⟨"time sync", 200, false, .time_sync, .deferred⟩,
   ⟨"wifi update", WIFI_UPDATE_INTERVAL, true, .wifi_update, .deferred⟩,
   ⟨"inner upadte", INNER_UPDATE_INTERVAL, true, .inner_update, .deferred⟩,
   ⟨"outdoor update", OUTDOOR_UPDATE_INTERVAL, true, .outdoor_update, .deferred⟩]

/-- The immediate `workqueue_run(app_work, …)` pass of `app_init`, in
program order: the jobs invoked once out of band before any timer fires. -/
def app_init_immediate_jobs : List app_job :=
  [.time_sync, .wifi_update, .inner_update, .outdoor_update]

/-- The timers started by the `xTimerStart` calls of `app_init`, by name, in
program order. -/
def app_init_started_timers : List String :=
  ["time update", "time sync", "wifi update", "inner upadte", "outdoor update"]

/- ## Auxiliary definitions for the verification -/

/-- The three structural anchors `parse_seniverse_response` insists on: the
`"results":` container, and from that position both the `"location":` and the
`"now":` sub-object anchors. -/
def required_anchors_present (response : String) : Bool :=
  match strstrList ("\"results\":").toList response.toList with
  | none => false
  | some r =>
    (strstrList ("\"location\":").toList r).isSome &&
    (strstrList ("\"now\":").toList r).isSome

/-- Definition following the claim's words (for the refinement claim about
`wifi_update`): a filter that compares only the `connected` flag of the new
status against the snapshot, forwarding the SSID on connect and the fixed
sentinel on disconnect. -/
def wifi_update_connected_only (fetch : Option esp_wifi_info_t)
    (last_info : esp_wifi_info_t) : esp_wifi_info_t × List DisplayCall :=
  match fetch with
  | none => (last_info, [])
  | some info =>
    if last_info.connected = info.connected then (last_info, [])
    else if info.connected then
      (info, [.main_page_redraw_wifi_ssid info.ssid])
    else
      (info, [.main_page_redraw_wifi_ssid "wifi lost"])

/-- The exemplar Seniverse payload from the source's own documentation
comment. -/
def seniverse_example : String :=
  "\x7b\"results\":[\x7b\"location\":\x7b\"name\":\"Singapore\",\"path\":\"Singapore,Singapore,Singapore\"\x7d,\"now\":\x7b\"text\":\"Sunny\",\"code\":\"0\",\"temperature\":\"28\"\x7d\x7d]\x7d"

/-- The exemplar payload with the `"code"` key entirely removed. -/
def seniverse_example_no_code : String :=
  "\x7b\"results\":[\x7b\"location\":\x7b\"name\":\"Singapore\",\"path\":\"Singapore,Singapore,Singapore\"\x7d,\"now\":\x7b\"text\":\"Sunny\",\"temperature\":\"28\"\x7d\x7d]\x7d"

/-- The exemplar payload with the city name changed to `Paris` (same `now`
section, so only fields the display never shows differ). -/
def seniverse_example_paris : String :=
  "\x7b\"results\":[\x7b\"location\":\x7b\"name\":\"Paris\",\"path\":\"Singapore,Singapore,Singapore\"\x7d,\"now\":\x7b\"text\":\"Sunny\",\"code\":\"0\",\"temperature\":\"28\"\x7d\x7d]\x7d"

/-- The record the extractor produces from `seniverse_example`. -/
def seniverse_example_info : weather_info_t :=
  { city := "Singapore", loaction := "Singapore,Singapore,Singapore",
    weather := "Sunny", weather_code := 0, temperature := 28 }

/- ## Theorems -/

/-- C6: on the exemplar payload and an initially zeroed record, the field
extractor succeeds and yields city `"Singapore"`, location path
`"Singapore,Singapore,Singapore"`, weather description `"Sunny"`, weather
code 0 and temperature 28. -/
theorem C6_parse_exemplar :
    parse_seniverse_response seniverse_example weather_zero =
      some seniverse_example_info := by
  decide

/-- C8: on the exemplar payload with the `"code"` key entirely removed and an
initially zeroed record, the extractor still succeeds, the weather code keeps
its default 0, and all other fields are populated normally. -/
theorem C8_parse_without_code :
    parse_seniverse_response seniverse_example_no_code weather_zero =
      some seniverse_example_info := by
  decide

/-- C3 counterexample: the extractor has a third mandatory anchor.  The first
input contains both the `"results":` container anchor and the `"location":`
sub-object anchor, the second contains `"results":` and the `"now":`
sub-object anchor, yet extraction fails on both — so under either reading of
"the one named sub-object anchor", an input containing the two claimed
anchors is rejected. -/
theorem C3_counterexample :
    ((strstrList ("\"results\":").toList
        ("\x7b\"results\":[\x7b\"location\":\x7b\"name\":\"X\"\x7d\x7d]\x7d").toList).isSome = true ∧
     (strstrList ("\"location\":").toList
        ("\x7b\"results\":[\x7b\"location\":\x7b\"name\":\"X\"\x7d\x7d]\x7d").toList).isSome = true ∧
     parse_seniverse_response
        "\x7b\"results\":[\x7b\"location\":\x7b\"name\":\"X\"\x7d\x7d]\x7d" weather_zero = none) ∧
    ((strstrList ("\"results\":").toList
        ("\x7b\"results\":[\x7b\"now\":\x7b\"text\":\"Sunny\"\x7d\x7d]\x7d").toList).isSome = true ∧
     (strstrList ("\"now\":").toList
        ("\x7b\"results\":[\x7b\"now\":\x7b\"text\":\"Sunny\"\x7d\x7d]\x7d").toList).isSome = true ∧
     parse_seniverse_response
        "\x7b\"results\":[\x7b\"now\":\x7b\"text\":\"Sunny\"\x7d\x7d]\x7d" weather_zero = none) := by
  decide

/-- C3 (amended): the extractor has exactly three mandatory structural
anchors — the `"results":` container, and, from the position where it was
found, the `"location":` and `"now":` sub-object anchors.  Extraction
succeeds iff all three are present (every individual field key remaining
optional), and fails exactly when one of them is absent. -/
theorem C3_amended_three_anchors :
    ∀ (response : String) (info : weather_info_t),
      (parse_seniverse_response response info).isSome =
        required_anchors_present response := by
  intro response info
  unfold parse_seniverse_response required_anchors_present
  cases h1 : strstrList ("\"results\":").toList response.toList with
  | none => rfl
  | some r =>
    cases h2 : strstrList ("\"location\":").toList r with
    | none => simp only [h2]; rfl
    | some lr =>
      cases h3 : strstrList ("\"now\":").toList r with
      | none => simp only [h2, h3]; rfl
      | some nr => simp only [h2, h3]; rfl

/-- C7: the weather-icon selection maps the numeric code to one of five icon
categories by fixed disjoint integer ranges (sunny 0–1, cloudy 4–8, rainy
9–13, snowy 14–17); every code outside all four defined ranges selects the
unknown icon.  In particular code 2 selects unknown and code 10 selects
rainy. -/
theorem C7_weather_icon_ranges :
    (∀ code : Int,
      (main_page_redraw_outdoor_weather_icon code = .img_weather_sunny ↔
        0 ≤ code ∧ code ≤ 1) ∧
      (main_page_redraw_outdoor_weather_icon code = .img_weather_cloudy ↔
        4 ≤ code ∧ code ≤ 8) ∧
      (main_page_redraw_outdoor_weather_icon code = .img_weather_rainy ↔
        9 ≤ code ∧ code ≤ 13) ∧
      (main_page_redraw_outdoor_weather_icon code = .img_weather_snowy ↔
        14 ≤ code ∧ code ≤ 17) ∧
      (main_page_redraw_outdoor_weather_icon code = .img_weather_unknown ↔
        ¬((0 ≤ code ∧ code ≤ 1) ∨ (4 ≤ code ∧ code ≤ 8) ∨
          (9 ≤ code ∧ code ≤ 13) ∨ (14 ≤ code ∧ code ≤ 17)))) ∧
    main_page_redraw_outdoor_weather_icon 2 = .img_weather_unknown ∧
    main_page_redraw_outdoor_weather_icon 10 = .img_weather_rainy := by
  refine ⟨fun code => ?_, by decide, by decide⟩
  unfold main_page_redraw_outdoor_weather_icon
  split_ifs with h1 h2 h3 h4 <;>
    refine ⟨?_, ?_, ?_, ?_, ?_⟩ <;> simp_all <;> omega

/-- C2: every invocation of `time_sync` reprograms its own timer exactly
once — the effect trace contains exactly one `xTimerChangePeriod`, and it is
the last effect — with the fast-retry delay of 1 second when the fetch fails
or the returned year is below 2000, and the steady-state interval of 1 hour
otherwise; no other period value is ever programmed. -/
theorem C2_time_sync_always_reprograms :
    ∀ fetch : Option esp_date_time_t,
      ((time_sync fetch).filterMap SyncEffect.periodOf =
        [match fetch with
         | none => SECONDS 1
         | some esp_date =>
           if esp_date.year < 2000 then SECONDS 1 else TIME_SYNC_INTERVAL]) ∧
      ((time_sync fetch).filterMap SyncEffect.periodOf = [SECONDS 1] ∨
       (time_sync fetch).filterMap SyncEffect.periodOf = [TIME_SYNC_INTERVAL]) ∧
      (∃ ms, (time_sync fetch).getLast? = some (.xTimerChangePeriod ms)) := by
  intro fetch
  cases fetch with
  | none => exact ⟨rfl, Or.inl rfl, ⟨SECONDS 1, rfl⟩⟩
  | some esp_date =>
    by_cases h : esp_date.year < 2000
    · refine ⟨?_, Or.inl ?_, ⟨SECONDS 1, ?_⟩⟩ <;>
        simp [time_sync, h, SyncEffect.periodOf, List.filterMap]
    · refine ⟨?_, Or.inr ?_, ⟨TIME_SYNC_INTERVAL, ?_⟩⟩ <;>
        simp [time_sync, h, SyncEffect.periodOf, List.filterMap]

/-- C5 counterexample: the immediate out-of-band invocation pass of
`app_init` does not include the clock-display job `time_update` — only four
of the five jobs are invoked before their timers first expire. -/
theorem C5_counterexample :
    List.elem app_job.time_update app_init_immediate_jobs = false := by
  decide

/-- C5 (amended): `app_init` arms the timers of all five registered jobs,
and performs one immediate out-of-band invocation, through the deferred
work-queue path, of exactly the four jobs other than the clock-display
refresh job (`time_sync`, `wifi_update`, `inner_update`,
`outdoor_update`). -/
theorem C5_amended_init_pass :
    (∀ j : app_job, ∃ t ∈ app_init_timers,
      t.job = j ∧ t.name ∈ app_init_started_timers) ∧
    (∀ j : app_job, List.elem j app_init_immediate_jobs =
      (j != app_job.time_update)) := by
  decide

/-- C1: for the clock-display, indoor-sensor and outdoor-weather jobs, on an
invocation whose fetch succeeds (and whose year passes the plausibility
threshold, for the clock job), a display forward occurs iff the new value
differs from the last-forwarded snapshot under the domain's equality; when
equal nothing happens, when different the snapshot is updated and the
domain's display calls are made. -/
theorem C1_change_filter :
    (∀ (date last_date : rtc_date_time_t), 2020 ≤ date.year →
      (((time_update date last_date).2 ≠ []) ↔ date ≠ last_date) ∧
      (date = last_date → time_update date last_date = (last_date, [])) ∧
      (date ≠ last_date → time_update date last_date =
        (date, [.main_page_redraw_time date, .main_page_redraw_date date]))) ∧
    (∀ (temperature humidity : ℚ) (last : ℚ × ℚ),
      (((inner_update true true (some (temperature, humidity)) last).2 ≠ []) ↔
        ¬(temperature = last.1 ∧ humidity = last.2)) ∧
      ((temperature = last.1 ∧ humidity = last.2) →
        inner_update true true (some (temperature, humidity)) last = (last, [])) ∧
      (¬(temperature = last.1 ∧ humidity = last.2) →
        inner_update true true (some (temperature, humidity)) last =
          ((temperature, humidity),
           [.main_page_redraw_inner_temperature temperature,
            .main_page_redraw_inner_humidity humidity]))) ∧
    (∀ (response : String) (weather last_weather : weather_info_t),
      parse_seniverse_response response weather_zero = some weather →
      (((outdoor_update (some response) last_weather).2 ≠ []) ↔
        weather ≠ last_weather) ∧
      (weather = last_weather →
        outdoor_update (some response) last_weather = (last_weather, [])) ∧
      (weather ≠ last_weather →
        outdoor_update (some response) last_weather =
          (weather, [.main_page_redraw_outdoor_temperature weather.temperature,
                     .main_page_redraw_outdoor_weather_icon weather.weather_code]))) := by
  refine ⟨?_, ?_, ?_⟩
  · intro date last_date hy
    have hnot : ¬ date.year < 2020 := by omega
    refine ⟨⟨?_, ?_⟩, fun he => ?_, fun hne => ?_⟩
    · intro hcalls
      by_cases he : date = last_date
      · exact absurd (by simp [time_update, hnot, he]) hcalls
      · exact he
    · intro hne
      simp [time_update, hnot, hne]
    · simp [time_update, hnot, he]
    · simp [time_update, hnot, hne]
  · intro temperature humidity last
    by_cases hc : temperature = last.1 ∧ humidity = last.2 <;>
      simp [inner_update, hc]
  · intro response weather last_weather hparse
    refine ⟨⟨?_, ?_⟩, fun he => ?_, fun hne => ?_⟩
    · intro hcalls
      by_cases he : weather = last_weather
      · exact absurd (by simp [outdoor_update, hparse, he]) hcalls
      · exact he
    · intro hne
      simp [outdoor_update, hparse, hne]
    · simp [outdoor_update, hparse, he]
    · simp [outdoor_update, hparse, hne]

/-- Witness for C1: concrete invocations of the three jobs — an unchanged
clock reading forwards nothing, a changed sensor reading forwards both
indoor fields, and the exemplar weather payload against a zeroed snapshot
forwards temperature and icon. -/
theorem C1_change_filter_witness :
    (time_update ⟨2025, 1, 2, 3, 4, 5, 6⟩ ⟨2025, 1, 2, 3, 4, 5, 6⟩ =
      (⟨2025, 1, 2, 3, 4, 5, 6⟩, [])) ∧
    (inner_update true true (some (1, 2)) (0, 0) =
      ((1, 2), [.main_page_redraw_inner_temperature 1,
                .main_page_redraw_inner_humidity 2])) ∧
    (outdoor_update (some seniverse_example) weather_zero =
      (seniverse_example_info,
       [.main_page_redraw_outdoor_temperature seniverse_example_info.temperature,
        .main_page_redraw_outdoor_weather_icon seniverse_example_info.weather_code])) := by
  refine ⟨(C1_change_filter.1 ⟨2025, 1, 2, 3, 4, 5, 6⟩ ⟨2025, 1, 2, 3, 4, 5, 6⟩
            (by decide)).2.1 rfl,
          (C1_change_filter.2.1 1 2 (0, 0)).2.2 (by decide),
          (C1_change_filter.2.2 seniverse_example seniverse_example_info weather_zero
            (by decide)).2.2 (by decide)⟩

/-- C4: on a successful Wi-Fi status fetch, an unchanged `connected` flag
forwards nothing (whatever happened to the other fields); a
disconnected-to-connected transition forwards exactly the new network's
SSID; a connected-to-disconnected transition forwards exactly the fixed
sentinel text `"wifi lost"`. -/
theorem C4_wifi_transitions :
    ∀ (info last_info : esp_wifi_info_t),
      (info.connected = last_info.connected →
        (wifi_update (some info) last_info).2 = []) ∧
      (last_info.connected = false → info.connected = true →
        (wifi_update (some info) last_info).2 =
          [.main_page_redraw_wifi_ssid info.ssid]) ∧
      (last_info.connected = true → info.connected = false →
        (wifi_update (some info) last_info).2 =
          [.main_page_redraw_wifi_ssid "wifi lost"]) := by
  intro info last_info
  refine ⟨fun h => ?_, fun hl hn => ?_, fun hl hn => ?_⟩
  · by_cases he : info = last_info
    · simp [wifi_update, he]
    · simp [wifi_update, he, h.symm]
  · have hne : info ≠ last_info := fun he => by
      rw [he, hl] at hn
      exact Bool.false_ne_true hn
    simp [wifi_update, hne, hl, hn]
  · have hne : info ≠ last_info := fun he => by
      rw [he, hl] at hn
      exact Bool.false_ne_true hn.symm
    simp [wifi_update, hne, hl, hn]

/-- Witness for C4: a pure-RSSI change forwards nothing, a connect forwards
the new SSID, a disconnect forwards the sentinel. -/
theorem C4_wifi_transitions_witness :
    ((wifi_update (some ⟨"net", "bb", 1, -50, true⟩) ⟨"old", "aa", 2, -60, true⟩).2
      = []) ∧
    ((wifi_update (some ⟨"net", "bb", 1, -50, true⟩) ⟨"old", "aa", 2, -60, false⟩).2
      = [.main_page_redraw_wifi_ssid "net"]) ∧
    ((wifi_update (some ⟨"net", "bb", 1, -50, false⟩) ⟨"old", "aa", 2, -60, true⟩).2
      = [.main_page_redraw_wifi_ssid "wifi lost"]) := by
  refine ⟨(C4_wifi_transitions ⟨"net", "bb", 1, -50, true⟩ ⟨"old", "aa", 2, -60, true⟩).1 rfl,
          (C4_wifi_transitions ⟨"net", "bb", 1, -50, true⟩ ⟨"old", "aa", 2, -60, false⟩).2.1 rfl rfl,
          (C4_wifi_transitions ⟨"net", "bb", 1, -50, false⟩ ⟨"old", "aa", 2, -60, true⟩).2.2 rfl rfl⟩

/-- C9: the whole-struct early return of `wifi_update` is subsumed by the
connectivity comparison — the job is observably equivalent to a filter on
the `connected` flag alone — and consequently the snapshot keeps its stale
ssid/bssid/channel/rssi values across any run of invocations in which
connectivity does not change. -/
theorem C9_connected_only_refinement :
    (∀ (fetch : Option esp_wifi_info_t) (last_info : esp_wifi_info_t),
      wifi_update fetch last_info = wifi_update_connected_only fetch last_info) ∧
    (∀ (last_info : esp_wifi_info_t) (infos : List esp_wifi_info_t),
      (∀ i ∈ infos, i.connected = last_info.connected) →
      infos.foldl (fun st i => (wifi_update (some i) st).1) last_info = last_info) := by
  constructor
  · intro fetch last_info
    cases fetch with
    | none => rfl
    | some info =>
      by_cases he : info = last_info
      · subst he
        simp [wifi_update, wifi_update_connected_only]
      · simp [wifi_update, wifi_update_connected_only, he]
  · intro last_info infos
    induction infos with
    | nil => intro _; rfl
    | cons i is ih =>
      intro h
      have hi : i.connected = last_info.connected := h i (List.mem_cons_self i is)
      have hstep : (wifi_update (some i) last_info).1 = last_info := by
        by_cases he : i = last_info
        · simp [wifi_update, he]
        · simp [wifi_update, he, hi]
      simp only [List.foldl_cons, hstep]
      exact ih fun j hj => h j (List.mem_cons_of_mem i hj)

/-- Witness for C9: with a connected snapshot, an invocation reporting the
same connectivity but a different rssi and channel leaves the snapshot —
stale rssi included — untouched, and agrees with the connectivity-only
filter. -/
theorem C9_connected_only_refinement_witness :
    ((∀ i ∈ [(⟨"home", "aa:bb", 11, -70, true⟩ : esp_wifi_info_t)],
        i.connected = (⟨"home", "aa:bb", 6, -40, true⟩ : esp_wifi_info_t).connected) ∧
      [(⟨"home", "aa:bb", 11, -70, true⟩ : esp_wifi_info_t)].foldl
          (fun st i => (wifi_update (some i) st).1) ⟨"home", "aa:bb", 6, -40, true⟩ =
        ⟨"home", "aa:bb", 6, -40, true⟩) ∧
    wifi_update (some ⟨"home", "aa:bb", 11, -70, true⟩) ⟨"home", "aa:bb", 6, -40, true⟩ =
      wifi_update_connected_only (some ⟨"home", "aa:bb", 11, -70, true⟩)
        ⟨"home", "aa:bb", 6, -40, true⟩ := by
  refine ⟨⟨by decide, ?_⟩, ?_⟩
  · exact C9_connected_only_refinement.2 ⟨"home", "aa:bb", 6, -40, true⟩
      [⟨"home", "aa:bb", 11, -70, true⟩] (by decide)
  · exact C9_connected_only_refinement.1 (some ⟨"home", "aa:bb", 11, -70, true⟩)
      ⟨"home", "aa:bb", 6, -40, true⟩

/-- C10: an outdoor-weather invocation whose parsed record differs from the
snapshot only in never-displayed fields still performs both display
forwards, with values identical to those already forwarded; and no job ever
forwards the city text, although the city display setter exists. -/
theorem C10_redundant_forwards_no_city :
    (∀ (response : String) (weather last_weather : weather_info_t),
      parse_seniverse_response response weather_zero = some weather →
      weather ≠ last_weather →
      weather.temperature = last_weather.temperature →
      weather.weather_code = last_weather.weather_code →
      outdoor_update (some response) last_weather =
        (weather,
         [.main_page_redraw_outdoor_temperature last_weather.temperature,
          .main_page_redraw_outdoor_weather_icon last_weather.weather_code])) ∧
    (∀ (fetch : Option esp_wifi_info_t) (last_info : esp_wifi_info_t) (city : String),
      main_page_redraw_outdoor_city city ∉ (wifi_update fetch last_info).2) ∧
    (∀ (date last_date : rtc_date_time_t) (city : String),
      main_page_redraw_outdoor_city city ∉ (time_update date last_date).2) ∧
    (∀ (start_ok wait_ok : Bool) (read : Option (ℚ × ℚ)) (last : ℚ × ℚ)
        (city : String),
      main_page_redraw_outdoor_city city ∉
        (inner_update start_ok wait_ok read last).2) ∧
    (∀ (fetch : Option String) (last_weather : weather_info_t) (city : String),
      main_page_redraw_outdoor_city city ∉
        (outdoor_update fetch last_weather).2) := by
  refine ⟨?_, ?_, ?_, ?_, ?_⟩
  · intro response weather last_weather hparse hne htemp hcode
    rw [← htemp, ← hcode]
    simp [outdoor_update, hparse, hne]
  · intro fetch last_info city
    cases fetch with
    | none => simp [wifi_update, main_page_redraw_outdoor_city]
    | some info =>
      simp only [wifi_update]
      split_ifs <;> simp [main_page_redraw_outdoor_city]
  · intro date last_date city
    unfold time_update
    split_ifs <;> simp [main_page_redraw_outdoor_city]
  · intro start_ok wait_ok read last city
    cases read with
    | none =>
      cases start_ok <;> cases wait_ok <;>
        simp [inner_update, main_page_redraw_outdoor_city]
    | some pr =>
      obtain ⟨t, h⟩ := pr
      by_cases hc : t = last.1 ∧ h = last.2 <;>
        cases start_ok <;> cases wait_ok <;>
        simp [inner_update, hc, main_page_redraw_outdoor_city]
  · intro fetch last_weather city
    cases fetch with
    | none => simp [outdoor_update, main_page_redraw_outdoor_city]
    | some response =>
      cases hp : parse_seniverse_response response weather_zero with
      | none => simp [outdoor_update, hp, main_page_redraw_outdoor_city]
      | some w =>
        simp only [outdoor_update, hp]
        split_ifs <;> simp [main_page_redraw_outdoor_city]

/-- Witness for C10: against the exemplar snapshot, a payload differing only
in the city name still triggers both outdoor forwards carrying the already
forwarded values; and concrete invocations of every job forward no city
text. -/
theorem C10_redundant_forwards_no_city_witness :
    (outdoor_update (some seniverse_example_paris) seniverse_example_info =
      (⟨"Paris", "Singapore,Singapore,Singapore", "Sunny", 0, 28⟩,
       [.main_page_redraw_outdoor_temperature seniverse_example_info.temperature,
        .main_page_redraw_outdoor_weather_icon seniverse_example_info.weather_code])) ∧
    (main_page_redraw_outdoor_city "Singapore" ∉
      (wifi_update (some ⟨"net", "bb", 1, -50, true⟩) ⟨"old", "aa", 2, -60, false⟩).2) ∧
    (main_page_redraw_outdoor_city "Singapore" ∉
      (time_update ⟨2025, 1, 2, 3, 4, 5, 6⟩ ⟨0, 0, 0, 0, 0, 0, 0⟩).2) ∧
    (main_page_redraw_outdoor_city "Singapore" ∉
      (inner_update true true (some (1, 2)) (0, 0)).2) ∧
    (main_page_redraw_outdoor_city "Singapore" ∉
      (outdoor_update (some seniverse_example) weather_zero).2) := by
  refine ⟨C10_redundant_forwards_no_city.1 seniverse_example_paris
            ⟨"Paris", "Singapore,Singapore,Singapore", "Sunny", 0, 28⟩
            seniverse_example_info (by decide) (by decide) rfl rfl,
          C10_redundant_forwards_no_city.2.1 (some ⟨"net", "bb", 1, -50, true⟩)
            ⟨"old", "aa", 2, -60, false⟩ "Singapore",
          C10_redundant_forwards_no_city.2.2.1 ⟨2025, 1, 2, 3, 4, 5, 6⟩
            ⟨0, 0, 0, 0, 0, 0, 0⟩ "Singapore",
          C10_redundant_forwards_no_city.2.2.2.1 true true (some (1, 2)) (0, 0)
            "Singapore",
          C10_redundant_forwards_no_city.2.2.2.2 (some seniverse_example)
            weather_zero "Singapore"⟩
